import Mathlib

/-! Shallow embedding of `src/python/golden_codex_reader.py` (Golden Codex
Reader SDK v2.0) and proofs about its decode / verify / match pipeline.

Pure Python code is translated function by function.  The external library
primitives the script composes (`base64.b64decode`, `gzip.decompress`,
`json.loads`, the `requests` HTTP transport, `imagehash` and PIL image
loading) are not part of the repository; they are modelled either as
explicit parameters of the embedded functions or, where the specification
pins their contract down, as definitions marked "Modelled from the spec". -/

namespace GCR

/-! ## Python string helpers -/

/-- The characters Python's `str.strip()` removes: exactly those for which
`str.isspace()` holds (code points 9 to 13, 28 to 31, 32, 0x85, 0xa0,
0x1680, 0x2000 to 0x200a, 0x2028, 0x2029, 0x202f, 0x205f, 0x3000). -/
def isPySpace (c : Char) : Bool :=
  ('\x09' ≤ c && c ≤ '\x0d') || ('\x1c' ≤ c && c ≤ '\x1f') || c = ' ' ||
  c = '\u0085' || c = '\u00a0' || c = '\u1680' ||
  ('\u2000' ≤ c && c ≤ '\u200a') || c = '\u2028' || c = '\u2029' ||
  c = '\u202f' || c = '\u205f' || c = '\u3000'

/-- Strip characters satisfying `p` from both ends (Python `str.strip`). -/
def stripWith (p : Char → Bool) (l : List Char) : List Char :=
  (l.dropWhile p).rdropWhile p

/-- Python `s.strip()` with no argument: strip whitespace from both ends. -/
def pyStrip (s : String) : String := String.mk (stripWith isPySpace s.data)

/-! ## JSON values

Values produced by `json.loads` / consumed by `json.dumps`.  Python dicts
preserve insertion order, so objects are association lists in document
order.  Numbers are restricted to integers (no claim depends on float
formatting). -/

inductive Json where
  | null
  | bool (b : Bool)
  | num (n : Int)
  | str (s : String)
  | arr (xs : List Json)
  | obj (kvs : List (String × Json))

/-- Lowercase hexadecimal digit. -/
def hexLowerChar (n : Nat) : Char :=
  if n < 10 then Char.ofNat (48 + n) else Char.ofNat (87 + n)

/-- Four lowercase hex digits, as in Python's `'\u%04x'` escapes. -/
def hex4Lower (n : Nat) : String :=
  String.mk [hexLowerChar (n / 4096 % 16), hexLowerChar (n / 256 % 16),
             hexLowerChar (n / 16 % 16), hexLowerChar (n % 16)]

/-- Escaping of one character inside a JSON string literal, as produced by
`json.dumps(..., ensure_ascii=False)`: only the quote, the backslash and
control characters are escaped; non-ASCII characters stay literal. -/
def jsonEscapeChar (c : Char) : String :=
  if c = '"' then "\\\""
  else if c = '\\' then "\\\\"
  else if c = '\x08' then "\\b"
  else if c = '\t' then "\\t"
  else if c = '\n' then "\\n"
  else if c = '\x0c' then "\\f"
  else if c = '\r' then "\\r"
  else if c.toNat < 32 then "\\u" ++ hex4Lower c.toNat
  else String.singleton c

/-- JSON string literal as serialized by `json.dumps(..., ensure_ascii=False)`. -/
def jsonStrLit (s : String) : String :=
  "\"" ++ String.join (s.data.map jsonEscapeChar) ++ "\""

mutual

/-- Minified serialization
`json.dumps(v, separators=(",", ":"), ensure_ascii=False)`:
minimal separators, insertion order of keys preserved, non-ASCII literal. -/
def jsonMin : Json → String
  | .null => "null"
  | .bool true => "true"
  | .bool false => "false"
  | .num n => toString n
  | .str s => jsonStrLit s
  | .arr xs => "[" ++ jsonMinArr xs ++ "]"
  | .obj kvs => "\x7b" ++ jsonMinObj kvs ++ "\x7d"

/-- Comma-separated minified serialization of array elements. -/
def jsonMinArr : List Json → String
  | [] => ""
  | [x] => jsonMin x
  | x :: y :: rest => jsonMin x ++ "," ++ jsonMinArr (y :: rest)

/-- Comma-separated minified serialization of object entries, `key:value`. -/
def jsonMinObj : List (String × Json) → String
  | [] => ""
  | [(k, v)] => jsonStrLit k ++ ":" ++ jsonMin v
  | (k, v) :: kv :: rest => jsonStrLit k ++ ":" ++ jsonMin v ++ "," ++ jsonMinObj (kv :: rest)

end

/-! ## Python `str()` / `repr()` of values (used in f-string interpolation) -/

/-- Python `repr` of a string: quote choice and the common escapes. -/
def pyReprStr (s : String) : String :=
  let q : Char := if s.data.contains '\'' && !(s.data.contains '"') then '"' else '\''
  let esc := fun (c : Char) =>
    if c = q then "\\" ++ String.singleton q
    else if c = '\\' then "\\\\"
    else if c = '\n' then "\\n"
    else if c = '\r' then "\\r"
    else if c = '\t' then "\\t"
    else String.singleton c
  String.singleton q ++ String.join (s.data.map esc) ++ String.singleton q

mutual

/-- Python `repr()` of a decoded JSON value. -/
def pyRepr : Json → String
  | .null => "None"
  | .bool true => "True"
  | .bool false => "False"
  | .num n => toString n
  | .str s => pyReprStr s
  | .arr xs => "[" ++ pyReprArr xs ++ "]"
  | .obj kvs => "\x7b" ++ pyReprObj kvs ++ "\x7d"

/-- Elements of a list under `repr`, separated by `", "`. -/
def pyReprArr : List Json → String
  | [] => ""
  | [x] => pyRepr x
  | x :: y :: rest => pyRepr x ++ ", " ++ pyReprArr (y :: rest)

/-- Entries of a dict under `repr`, `'key': value` separated by `", "`. -/
def pyReprObj : List (String × Json) → String
  | [] => ""
  | [(k, v)] => pyReprStr k ++ ": " ++ pyRepr v
  | (k, v) :: kv :: rest => pyReprStr k ++ ": " ++ pyRepr v ++ ", " ++ pyReprObj (kv :: rest)

end

/-- Python `str()` of a value, as interpolated into f-strings: strings are
taken verbatim, every other value falls back to `repr`. -/
def pyStr : Json → String
  | .str s => s
  | v => pyRepr v

/-! ## UTF-8 (Python `str.encode()`) -/

/-- UTF-8 encoding of one character. -/
def utf8Char (c : Char) : List Nat :=
  let n := c.toNat
  if n < 128 then [n]
  else if n < 2048 then [192 + n / 64, 128 + n % 64]
  else if n < 65536 then [224 + n / 4096, 128 + n / 64 % 64, 128 + n % 64]
  else [240 + n / 262144, 128 + n / 4096 % 64, 128 + n / 64 % 64, 128 + n % 64]

/-- UTF-8 encoding of a string (Python `s.encode()`). -/
def utf8 (s : String) : List Nat := (s.data.map utf8Char).flatten

/-! ## SHA-256 (`hashlib.sha256(...).hexdigest()`) -/

/-- Truncate to a 32-bit word. -/
def w32 (n : Nat) : Nat := n % 4294967296

/-- Rotate a 32-bit word right by `k` bits. -/
def rotr32 (k x : Nat) : Nat := x / 2 ^ k + x % 2 ^ k * 2 ^ (32 - k)

/-- SHA-256 choice function. -/
def shaCh (x y z : Nat) : Nat := (x &&& y) ^^^ ((x ^^^ 4294967295) &&& z)

/-- SHA-256 majority function. -/
def shaMaj (x y z : Nat) : Nat := (x &&& y) ^^^ (x &&& z) ^^^ (y &&& z)

/-- SHA-256 big sigma 0. -/
def bSig0 (x : Nat) : Nat := rotr32 2 x ^^^ rotr32 13 x ^^^ rotr32 22 x

/-- SHA-256 big sigma 1. -/
def bSig1 (x : Nat) : Nat := rotr32 6 x ^^^ rotr32 11 x ^^^ rotr32 25 x

/-- SHA-256 small sigma 0. -/
def sSig0 (x : Nat) : Nat := rotr32 7 x ^^^ rotr32 18 x ^^^ x / 8

/-- SHA-256 small sigma 1. -/
def sSig1 (x : Nat) : Nat := rotr32 17 x ^^^ rotr32 19 x ^^^ x / 1024

/-- SHA-256 round constants. -/
def shaK : List Nat :=
  [1116352408, 1899447441, 3049323471, 3921009573, 961987163, 1508970993,
   2453635748, 2870763221, 3624381080, 310598401, 607225278, 1426881987,
   1925078388, 2162078206, 2614888103, 3248222580, 3835390401, 4022224774,
   264347078, 604807628, 770255983, 1249150122, 1555081692, 1996064986,
   2554220882, 2821834349, 2952996808, 3210313671, 3336571891, 3584528711,
   113926993, 338241895, 666307205, 773529912, 1294757372, 1396182291,
   1695183700, 1986661051, 2177026350, 2456956037, 2730485921, 2820302411,
   3259730800, 3345764771, 3516065817, 3600352804, 4094571909, 275423344,
   430227734, 506948616, 659060556, 883997877, 958139571, 1322822218,
   1537002063, 1747873779, 1955562222, 2024104815, 2227730452, 2361852424,
   2428436474, 2756734187, 3204031479, 3329325298]

/-- SHA-256 initial hash value. -/
def shaH0 : List Nat :=
  [1779033703, 3144134277, 1013904242, 2773480762,
   1359893119, 2600822924, 528734635, 1541459225]

/-- Working state of the SHA-256 compression function. -/
structure ShaState where
  a : Nat
  b : Nat
  c : Nat
  d : Nat
  e : Nat
  f : Nat
  g : Nat
  h : Nat

/-- One SHA-256 round; `kw` pairs the round constant with the schedule word. -/
def shaRound (s : ShaState) (kw : Nat × Nat) : ShaState :=
  let t1 := w32 (s.h + bSig1 s.e + shaCh s.e s.f s.g + kw.1 + kw.2)
  let t2 := w32 (bSig0 s.a + shaMaj s.a s.b s.c)
  ⟨w32 (t1 + t2), s.a, s.b, s.c, w32 (s.d + t1), s.e, s.f, s.g⟩

/-- Pack eight words into a `ShaState`. -/
def listToState : List Nat → ShaState
  | [a, b, c, d, e, f, g, h] => ⟨a, b, c, d, e, f, g, h⟩
  | _ => ⟨0, 0, 0, 0, 0, 0, 0, 0⟩

/-- Unpack a `ShaState` into eight words. -/
def stateToList (s : ShaState) : List Nat := [s.a, s.b, s.c, s.d, s.e, s.f, s.g, s.h]

/-- Extend the message schedule by one word. -/
def scheduleStep (ws : List Nat) : List Nat :=
  ws ++ [w32 (sSig1 (ws.getD (ws.length - 2) 0) + ws.getD (ws.length - 7) 0 +
              sSig0 (ws.getD (ws.length - 15) 0) + ws.getD (ws.length - 16) 0)]

/-- Expand the sixteen block words to the 64-word message schedule. -/
def schedule (w0 : List Nat) : List Nat :=
  (List.range 48).foldl (fun ws _ => scheduleStep ws) w0

/-- Group bytes into big-endian 32-bit words. -/
def chunk4 : List Nat → List Nat
  | a :: b :: c :: d :: rest => (((a * 256 + b) * 256 + c) * 256 + d) :: chunk4 rest
  | _ => []

/-- Split a byte list into 64-byte blocks (structural recursion on a fuel
bound so that the definition reduces in the kernel). -/
def chunk64Aux : Nat → List Nat → List (List Nat)
  | 0, _ => []
  | _, [] => []
  | fuel + 1, x :: xs => (x :: xs).take 64 :: chunk64Aux fuel ((x :: xs).drop 64)

/-- Split a byte list into 64-byte blocks. -/
def chunk64 (l : List Nat) : List (List Nat) := chunk64Aux l.length l

/-- Big-endian 64-bit length field of the SHA-256 padding. -/
def lenBytes8 (n : Nat) : List Nat :=
  [n / 2 ^ 56 % 256, n / 2 ^ 48 % 256, n / 2 ^ 40 % 256, n / 2 ^ 32 % 256,
   n / 2 ^ 24 % 256, n / 2 ^ 16 % 256, n / 2 ^ 8 % 256, n % 256]

/-- SHA-256 padding: `0x80`, zeros to 56 mod 64, then the bit length. -/
def shaPad (msg : List Nat) : List Nat :=
  msg ++ 128 :: (List.replicate ((119 - msg.length % 64) % 64) 0 ++ lenBytes8 (8 * msg.length))

/-- Compress one 64-byte block into the running hash. -/
def shaCompress (hs : List Nat) (block : List Nat) : List Nat :=
  let ws := schedule (chunk4 block)
  let s1 := (shaK.zip ws).foldl shaRound (listToState hs)
  List.zipWith (fun x y => w32 (x + y)) hs (stateToList s1)

/-- SHA-256 digest of a byte list, as eight 32-bit words. -/
def sha256Words (msg : List Nat) : List Nat :=
  (chunk64 (shaPad msg)).foldl shaCompress shaH0

/-- Eight lowercase hex digits of a 32-bit word. -/
def toHex8 (n : Nat) : String :=
  String.mk ((List.range 8).map fun i => hexLowerChar (n / 16 ^ (7 - i) % 16))

/-- Lowercase hex SHA-256 digest of a byte list
(`hashlib.sha256(bytes).hexdigest()`). -/
def sha256hex (msg : List Nat) : String := String.join ((sha256Words msg).map toHex8)

/-! ## Canonical hash (`calculate_gc_hash`) -/

/-- The embedded `calculate_gc_hash`: a dict input is minified with
`json.dumps(d, separators=(",", ":"), ensure_ascii=False)` and hashed; any
other input is assumed to be a string and its UTF-8 bytes are hashed
verbatim.  A non-dict, non-string input makes Python call `.encode()` on a
value that lacks it (`AttributeError`), modelled as `none`. -/
def calculate_gc_hash : Json → Option String
  | .obj kvs => some (sha256hex (utf8 (jsonMin (.obj kvs))))
  | .str s => some (sha256hex (utf8 s))
  | _ => none

/-! ## Decode pipeline (`decode_gcuis_payload`, `verify_integrity`)

`base64.b64decode`, `gzip.decompress(...).decode("utf-8")` and
`json.loads` are external library primitives; they are parameters of the
embedding, each returning either a value or the Python exception it
raised. -/

/-- Python exceptions that can surface from the three decode steps;
`otherExc` stands for any exception outside the three named classes. -/
inductive PyExc where
  | binasciiError (msg : String)
  | badGzipFile (msg : String)
  | jsonDecodeError (msg : String)
  | otherExc (msg : String)

/-- Message carried by a decode-step exception. -/
def excMsg : PyExc → String
  | .binasciiError m => m
  | .badGzipFile m => m
  | .jsonDecodeError m => m
  | .otherExc m => m

/-- The three library primitives composed by the decode pipeline. -/
structure Prims where
  base64_decode : String → Except PyExc (List Nat)
  gzip_decompress : List Nat → Except PyExc String
  json_parse : String → Except PyExc Json

/-- Python `ValueError` raised by `decode_gcuis_payload`; this is the
specification's `FormatError` kind (spec section 7 maps malformed
Base64/GZIP/JSON to `FormatError`). -/
structure FormatError where
  msg : String

/-- The message of the wrapping `ValueError`, dispatching on the exception
class exactly as the `except` clauses of `decode_gcuis_payload` do. -/
def wrapMsg : PyExc → String
  | .binasciiError m => "Base64 decoding failed: " ++ m
  | .badGzipFile m => "GZIP decompression failed (not a valid gzip file): " ++ m
  | .jsonDecodeError m => "JSON parsing failed: " ++ m
  | .otherExc m => "Payload corruption or invalid format: " ++ m

/-- The embedded `decode_gcuis_payload`: strip the payload, Base64-decode,
GZIP-decompress, JSON-parse; any exception from the chain is wrapped into a
`ValueError` (= `FormatError`) whose message names the failing stage and
carries the original cause. -/
def decode_gcuis_payload (P : Prims) (base64_payload : String) :
    Except FormatError (Json × String) :=
  match P.base64_decode (pyStrip base64_payload) with
  | .error e => .error ⟨wrapMsg e⟩
  | .ok compressed_data =>
    match P.gzip_decompress compressed_data with
    | .error e => .error ⟨wrapMsg e⟩
    | .ok json_string =>
      match P.json_parse json_string with
      | .error e => .error ⟨wrapMsg e⟩
      | .ok gc_object => .ok (gc_object, json_string)

/-- The embedded `verify_integrity`: decode the payload, recompute the
canonical hash, compare for string equality.  Any exception (decode
failure, or `calculate_gc_hash` crashing on a non-dict, non-string
document) is caught and yields `(False, None)`. -/
def verify_integrity (P : Prims) (base64_payload expected_gc_hash : String) :
    Bool × Option Json :=
  match decode_gcuis_payload P base64_payload with
  | .error _ => (false, none)
  | .ok (gc_object, _) =>
    match calculate_gc_hash gc_object with
    | none => (false, none)
    | some calculated_hash =>
      if calculated_hash = expected_gc_hash then (true, some gc_object)
      else (false, some gc_object)

/-! ## Reporting (`get_summary_lines`, `sanitize_artifact_id`,
`write_meta_file`) -/

/-- Lookup in an object's association list (Python `dict` access). -/
def jLookup (kvs : List (String × Json)) (k : String) : Option Json :=
  match kvs.find? (fun kv => kv.1 = k) with
  | some kv => some kv.2
  | none => none

/-- The 60-character separator rule `"=" * 60`. -/
def sep60 : String := String.mk (List.replicate 60 '=')

/-- Render one of Python's optional hash arguments: omitted or empty
(falsy) strings produce no line. -/
def optLine (label : String) : Option String → List String
  | some t => if t = "" then [] else [label ++ t]
  | none => []

/-- Lines of the timestamp section: present only when the `timestamp` key
exists; `none` models the `AttributeError` Python raises when the value is
not a dict. -/
def timestampLines (kvs : List (String × Json)) : Option (List String) :=
  match jLookup kvs "timestamp" with
  | none => some []
  | some (.obj ts) =>
    some ["Initiated:       " ++ pyStr ((jLookup ts "initiated").getD (.str "N/A")),
          "Enriched:        " ++ pyStr ((jLookup ts "enriched").getD (.str "N/A"))]
  | some _ => none

/-- Lines of the core-identity section, analogous to `timestampLines`. -/
def coreIdentityLines (kvs : List (String × Json)) : Option (List String) :=
  match jLookup kvs "coreIdentity" with
  | none => some []
  | some (.obj ci) =>
    some ["Title:           " ++ pyStr ((jLookup ci "title").getD (.str "N/A")),
          "Creator:         " ++ pyStr ((jLookup ci "creator").getD (.str "N/A"))]
  | some _ => none

/-- Lines of the archival section, analogous to `timestampLines`. -/
def archivalLines (kvs : List (String × Json)) : Option (List String) :=
  match jLookup kvs "archival" with
  | none => some []
  | some (.obj ar) =>
    some ["Institution:     " ++ pyStr ((jLookup ar "institution").getD (.str "N/A"))]
  | some _ => none

/-- The embedded `get_summary_lines`.  `none` models the exceptions Python
raises when the document or a present section value is not a dict. -/
def get_summary_lines (gc_object : Json) (calculated_hash extracted_hash soulmark : Option String) :
    Option (List String) :=
  match gc_object with
  | .obj kvs =>
    match timestampLines kvs, coreIdentityLines kvs, archivalLines kvs with
    | some ts, some ci, some ar =>
      some ([sep60, "📊 Golden Codex Summary", sep60,
             "Schema Version:  " ++ pyStr ((jLookup kvs "schemaVersion").getD (.str "N/A")),
             "Agent:           " ++ pyStr ((jLookup kvs "agent").getD (.str "N/A")),
             "Artifact ID:     " ++ pyStr ((jLookup kvs "artifactId").getD (.str "N/A")),
             "Codex ID:        " ++ pyStr ((jLookup kvs "codexId").getD (.str "N/A"))] ++
            ts ++ ci ++ ar ++
            optLine "Calculated Hash: " calculated_hash ++
            optLine "Embedded Hash:   " extracted_hash ++
            optLine "Soulmark:        " soulmark ++ [sep60])
    | _, _, _ => none
  | _ => none

/-- The ASCII fragment of Python's `str.isalnum`, on which it is exact.
The full predicate is Unicode-aware (for example `'é'.isalnum()` is
`True`), and its table is external data, so the sanitizer takes the full
predicate as a parameter and the theorems constrain it to agree with this
fragment on the ASCII range. -/
def pyIsAlnumAscii (c : Char) : Bool := c.isAlpha || c.isDigit

/-- Python `artifact_id or fallback or "golden_codex"`: `None` and the
empty string are falsy, everything else (including whitespace-only
strings) is truthy. -/
def pyOr3 (artifact_id : Option String) (fallback : String) : String :=
  match artifact_id with
  | some s => if s = "" then (if fallback = "" then "golden_codex" else fallback) else s
  | none => if fallback = "" then "golden_codex" else fallback

/-- Replacement and trimming part of `sanitize_artifact_id`, parameterized
by Python's `str.isalnum` predicate: each character that is neither
alphanumeric nor `-` nor `_` becomes `_`, underscores are stripped from
both ends, and `"golden_codex"` is the final fallback for an empty
result. -/
def sanitizeCore (isalnum : Char → Bool) (candidate : List Char) : String :=
  let safe := candidate.map fun c => if isalnum c || c = '-' || c = '_' then c else '_'
  let sanitized := stripWith (fun c => c = '_') safe
  if sanitized = [] then "golden_codex" else String.mk sanitized

/-- The embedded `sanitize_artifact_id`: `(artifact_id or fallback or
"golden_codex").strip()`, then replacement and trimming.  `isalnum` is
Python's `str.isalnum` predicate. -/
def sanitize_artifact_id (isalnum : Char → Bool) (artifact_id : Option String)
    (fallback : String) : String :=
  sanitizeCore isalnum (pyStrip (pyOr3 artifact_id fallback)).data

/-- Python truthiness of a decoded JSON value. -/
def pyTruthy : Json → Bool
  | .null => false
  | .bool b => b
  | .num n => n != 0
  | .str s => s != ""
  | .arr xs => !xs.isEmpty
  | .obj kvs => !kvs.isEmpty

/-- Feed `gc_object.get('artifactId')` to `sanitize_artifact_id`: a
missing key or a falsy value (`None`, `0`, `False`, `""`, `[]`, empty
dict) is falsy in `artifact_id or fallback` and behaves like an absent
id; a truthy string is used as the id; a truthy non-string value has no
`.strip()` method, so Python raises `AttributeError` (`none`). -/
def artifactIdArg (v : Option Json) : Option (Option String) :=
  match v with
  | none => some none
  | some v =>
    if pyTruthy v then
      match v with
      | .str s => some (some s)
      | _ => none
    else some none

/-- The embedded `write_meta_file`, returning the companion file's name and
its text instead of writing it; `output_stem` is `output_json_path.stem`
and `isalnum` is Python's `str.isalnum` predicate.  `none` models the
exceptions of `get_summary_lines`, or Python crashing in
`sanitize_artifact_id` on a truthy non-string `artifactId` value (no
`.strip()` method). -/
def write_meta_file (isalnum : Char → Bool) (gc_object : Json) (output_stem : String)
    (calculated_hash : String) (extracted_hash soulmark : Option String) :
    Option (String × String) :=
  match get_summary_lines gc_object (some calculated_hash) extracted_hash soulmark with
  | none => none
  | some lines =>
    let summary_text := String.intercalate "\n" lines ++ "\n"
    let aid : Option (Option String) :=
      match gc_object with
      | .obj kvs => artifactIdArg (jLookup kvs "artifactId")
      | _ => none
    match aid with
    | none => none
    | some artifact_id =>
      some (sanitize_artifact_id isalnum artifact_id output_stem ++ "_meta.txt", summary_text)

/-! ## Perceptual-hash similarity (`calculate_hash_similarity`)

The hex parsing and hash subtraction live in the third-party `imagehash`
library, which is not part of this repository; those two pieces are
modelled from the spec (section 4.4). -/

/-- Error kinds surfacing from the similarity computation, following the
specification's error taxonomy (section 7). -/
inductive SimErr where
  | formatError (msg : String)
  | validationError (msg : String)
  | zeroDivisionError

/-- Value of one hexadecimal digit. -/
def hexDigitVal (c : Char) : Option Nat :=
  if '0' ≤ c ∧ c ≤ '9' then some (c.toNat - 48)
  else if 'a' ≤ c ∧ c ≤ 'f' then some (c.toNat - 87)
  else if 'A' ≤ c ∧ c ≤ 'F' then some (c.toNat - 55)
  else none

/-- The four bits of a hex digit, most significant first. -/
def bits4 (n : Nat) : List Bool := [n.testBit 3, n.testBit 2, n.testBit 1, n.testBit 0]

/-- Bits of a hex string, 4 bits per digit; `none` on a non-hex character. -/
def hexBits : List Char → Option (List Bool)
  | [] => some []
  | c :: cs =>
    match hexDigitVal c, hexBits cs with
    | some v, some bs => some (bits4 v ++ bs)
    | _, _ => none

/-- Modelled from the spec: `imagehash.hex_to_hash` (library code not in
this repository) turns a hex-encoded hash into its bit string, 4 bits per
hex digit, failing on non-hex input. -/
def hex_to_hash (s : String) : Option (List Bool) := hexBits s.data

/-- Hamming distance between two equal-length bit strings (extra positions
of the longer argument are ignored). -/
def hammingDist (a b : List Bool) : Nat :=
  (List.zipWith (fun x y => x != y) a b).count true

/-- Round to 2 decimal places, as `round(x, 2)`. -/
def round2 (x : Rat) : Rat := ((round (x * 100) : Int) : Rat) / 100

/-- The embedded `calculate_hash_similarity`: parse both hex hashes,
subtract them (Hamming distance; modelled from the spec, the subtraction
fails with the `ValidationError` kind when the bit strings have different
lengths), normalize by `len(hash1) * 4` and round to 2 decimals.  Real
arithmetic is modelled over `Rat`; a zero bit count raises
`ZeroDivisionError` in Python. -/
def calculate_hash_similarity (hash1 hash2 : String) : Except SimErr Rat :=
  match hex_to_hash hash1 with
  | none => .error (.formatError ("invalid literal for int() with base 16: " ++ pyReprStr hash1))
  | some b1 =>
    match hex_to_hash hash2 with
    | none => .error (.formatError ("invalid literal for int() with base 16: " ++ pyReprStr hash2))
    | some b2 =>
      if b1.length = b2.length then
        let distance := hammingDist b1 b2
        let max_distance := hash1.length * 4
        if max_distance = 0 then .error .zeroDivisionError
        else .ok (round2 ((1 - (distance : Rat) / (max_distance : Rat)) * 100))
      else .error (.validationError "ImageHashes must be of the same shape")

/-! ## Registry matching (`match_hash`, `verify_provenance`)

The HTTP transport is external: its outcome (timeout, transport error, or
a response with a parsed JSON body) is a parameter of the embedding.  The
model assumes the `requests` dependency is installed (`HAS_REQUESTS`); the
missing-dependency `ImportError` path is outside the claims. -/

/-- Parsed JSON body of a registry response, as read by the three
`data.get(...)` calls of `match_hash`; a missing key is `none`. -/
structure RegistryBody where
  «matches» : Option (List Json)
  threshold : Option Rat
  index_stats : Option Json

/-- Outcome of the `requests.post` call inside `match_hash`. -/
inductive HttpOutcome where
  | timeout
  | requestException (msg : String)
  | response (status : Nat) (text : String) (body : RegistryBody)

/-- The dict returned by `match_hash`; keys that a branch does not set are
`none`. -/
structure MatchResult where
  success : Bool
  «matches» : List Json
  error : Option String
  threshold : Option Rat
  index_stats : Option Json
  query_hash : Option String

/-- The embedded `match_hash`: a non-200 response, a timeout and a
transport failure each produce a structured failure dict; a 200 response
produces a success dict quoting the body's candidate list verbatim. -/
def match_hash (hash_value : String) (outcome : HttpOutcome) (threshold : Rat) : MatchResult :=
  match outcome with
  | .timeout =>
    { success := false, «matches» := [], error := some "Request timed out",
      threshold := none, index_stats := none, query_hash := none }
  | .requestException m =>
    { success := false, «matches» := [], error := some m,
      threshold := none, index_stats := none, query_hash := none }
  | .response status text body =>
    if status ≠ 200 then
      { success := false, «matches» := [],
        error := some ("API error " ++ toString status ++ ": " ++ text),
        threshold := none, index_stats := none, query_hash := none }
    else
      { success := true, «matches» := body.«matches».getD [], error := none,
        threshold := some (body.threshold.getD threshold),
        index_stats := some (body.index_stats.getD (.obj [])),
        query_hash := some hash_value }

/-- Exceptions `generate_phash` can raise (the perceptual hashing itself is
an external library call). -/
inductive PhashErr where
  | importError (msg : String)
  | valueError (msg : String)

/-- The dict returned by `verify_provenance`; keys a branch does not set
are `none`. -/
structure ProvResult where
  verified : Bool
  method : String
  confidence : Option Json
  gcx_id : Option Json
  title : Option Json
  artist : Option Json
  provenance_uri : Option Json
  hash : Option String
  match_details : Option Json
  alternate_matches : Option (List Json)
  index_stats : Option Json
  error : Option String
  message : Option String

/-- The Python type name of a decoded JSON value, as it appears in
`AttributeError` messages. -/
def pyTypeName : Json → String
  | .null => "NoneType"
  | .bool _ => "bool"
  | .num _ => "int"
  | .str _ => "str"
  | .arr _ => "list"
  | .obj _ => "dict"

/-- `v.get(key, default)`: on a dict, the stored value or the default; on
any other value Python raises `AttributeError` (`'<type>' object has no
attribute 'get'`), modelled as `none`. -/
def jGetD (j : Json) (k : String) (d : Json) : Option Json :=
  match j with
  | .obj kvs => some ((jLookup kvs k).getD d)
  | _ => none

/-- The embedded `verify_provenance`: compose hash generation (its outcome
is the `phash_result` parameter) with `match_hash`.  A failed registry
query yields `verified=False` with the error; an empty match list yields
`verified=False` with a no-match message; otherwise the first match's
fields are promoted to the top level and the rest become alternates.
When the first match is not a dict, `best.get(...)` raises
`AttributeError`, which the generic `except Exception` clause turns into
`verified=False` with a `Verification failed: ...` error (and no `hash`
key). -/
def verify_provenance (phash_result : Except PhashErr String) (outcome : HttpOutcome)
    (threshold : Rat) : ProvResult :=
  match phash_result with
  | .error (.importError m) =>
    { verified := false, method := "hash", confidence := none, gcx_id := none,
      title := none, artist := none, provenance_uri := none, hash := none,
      match_details := none, alternate_matches := none, index_stats := none,
      error := some m, message := none }
  | .error (.valueError m) =>
    { verified := false, method := "hash", confidence := none, gcx_id := none,
      title := none, artist := none, provenance_uri := none, hash := none,
      match_details := none, alternate_matches := none, index_stats := none,
      error := some ("Verification failed: " ++ m), message := none }
  | .ok phash =>
    let result := match_hash phash outcome threshold
    if result.success = false then
      { verified := false, method := "hash", confidence := none, gcx_id := none,
        title := none, artist := none, provenance_uri := none, hash := some phash,
        match_details := none, alternate_matches := none, index_stats := none,
        error := some (result.error.getD "Unknown error"), message := none }
    else
      match result.«matches» with
      | [] =>
        { verified := false, method := "hash", confidence := none, gcx_id := none,
          title := none, artist := none, provenance_uri := none, hash := some phash,
          match_details := none, alternate_matches := none,
          index_stats := some (result.index_stats.getD (.obj [])),
          error := none, message := some "No matching artwork found in registry" }
      | best :: rest =>
        match best with
        | .obj bkvs =>
          { verified := true, method := "hash",
            confidence := jGetD (.obj bkvs) "similarity" (.num 0),
            gcx_id := jGetD (.obj bkvs) "gcx_id" .null,
            title := jGetD (.obj bkvs) "title" .null,
            artist := jGetD (.obj bkvs) "artist" .null,
            provenance_uri := jGetD (.obj bkvs) "provenance_uri" .null,
            hash := some phash, match_details := some (.obj bkvs),
            alternate_matches := some rest,
            index_stats := some (result.index_stats.getD (.obj [])),
            error := none, message := none }
        | b =>
          { verified := false, method := "hash", confidence := none, gcx_id := none,
            title := none, artist := none, provenance_uri := none, hash := none,
            match_details := none, alternate_matches := none, index_stats := none,
            error := some ("Verification failed: '" ++ pyTypeName b ++
              "' object has no attribute 'get'"),
            message := none }

/-! ## Validation of the SHA-256 embedding against a published test vector -/

/-- FIPS 180-2 test vector: the embedded SHA-256 agrees on `"abc"`. -/
theorem sha256hex_abc :
    sha256hex (utf8 "abc") =
      "ba7816bf8f01cfea414140de5dae2223b00361a396177a9cb410ff61f20015ad" := by decide

/-! ## Helper lemmas about stripping -/

theorem dropWhile_append_all {p : Char → Bool} (ws l : List Char)
    (h : ∀ c ∈ ws, p c = true) : (ws ++ l).dropWhile p = l.dropWhile p := by
  induction ws with
  | nil => rfl
  | cons c cs ih =>
    have hc : p c = true := h c (List.mem_cons_self c cs)
    simp only [List.cons_append, List.dropWhile_cons, hc, if_true]
    exact ih fun x hx => h x (List.mem_cons_of_mem c hx)

theorem dropWhile_append_of_ne_nil {p : Char → Bool} (l t : List Char)
    (h : l.dropWhile p ≠ []) : (l ++ t).dropWhile p = l.dropWhile p ++ t := by
  induction l with
  | nil => exact absurd rfl h
  | cons c cs ih =>
    by_cases hc : p c = true
    · simp only [List.dropWhile_cons, hc, if_true] at h ⊢
      simp only [List.cons_append, List.dropWhile_cons, hc, if_true]
      exact ih h
    · simp only [Bool.not_eq_true] at hc
      simp only [List.cons_append, List.dropWhile_cons, hc]
      simp

theorem rdropWhile_append_all {p : Char → Bool} (l ws : List Char)
    (h : ∀ c ∈ ws, p c = true) : (l ++ ws).rdropWhile p = l.rdropWhile p := by
  unfold List.rdropWhile
  rw [List.reverse_append, dropWhile_append_all ws.reverse l.reverse
        fun c hc => h c (List.mem_reverse.mp hc)]

theorem stripWith_pad {p : Char → Bool} (ws l ws' : List Char)
    (h : ∀ c ∈ ws, p c = true) (h' : ∀ c ∈ ws', p c = true) :
    stripWith p (ws ++ l ++ ws') = stripWith p l := by
  unfold stripWith
  rw [List.append_assoc, dropWhile_append_all ws (l ++ ws') h]
  by_cases hl : l.dropWhile p = []
  · have hall : ∀ x ∈ l, p x = true := List.dropWhile_eq_nil_iff.mp hl
    have : (l ++ ws').dropWhile p = [] := by
      refine List.dropWhile_eq_nil_iff.mpr fun x hx => ?_
      rcases List.mem_append.mp hx with hx | hx
      · exact hall x hx
      · exact h' x hx
    rw [this, hl]
  · rw [dropWhile_append_of_ne_nil l ws' hl, rdropWhile_append_all _ ws' h']

theorem pyStrip_pad (ws s ws' : String)
    (h : ∀ c ∈ ws.data, isPySpace c = true) (h' : ∀ c ∈ ws'.data, isPySpace c = true) :
    pyStrip (ws ++ s ++ ws') = pyStrip s := by
  unfold pyStrip
  have hdata : (ws ++ s ++ ws').data = ws.data ++ s.data ++ ws'.data := by
    simp [String.data_append]
  rw [hdata, stripWith_pad ws.data s.data ws'.data h h']

/-! ## Claims about the decode pipeline and the canonical hash -/

/-- C1: `verify_integrity` returns `matched = true` iff the payload decodes
successfully and the canonical SHA-256 hash recomputed from the decoded
document equals the expected hash (case-sensitive string equality); when
the decode chain fails it returns `matched = false` with an absent
document. -/
theorem C1_verify_integrity (P : Prims) (payload expected : String) :
    ((verify_integrity P payload expected).1 = true ↔
      ∃ doc js, decode_gcuis_payload P payload = .ok (doc, js) ∧
        calculate_gc_hash doc = some expected) ∧
    (∀ e, decode_gcuis_payload P payload = .error e →
      verify_integrity P payload expected = (false, none)) := by
  unfold verify_integrity
  cases hdec : decode_gcuis_payload P payload with
  | error e =>
    dsimp only
    refine ⟨⟨fun h => by simp at h, ?_⟩, fun _ _ => rfl⟩
    rintro ⟨doc, js, hok, -⟩
    exact Except.noConfusion hok
  | ok pr =>
    obtain ⟨doc, js⟩ := pr
    dsimp only
    refine ⟨?_, fun e he => Except.noConfusion he⟩
    cases hch : calculate_gc_hash doc with
    | none =>
      dsimp only
      refine ⟨fun h => by simp at h, ?_⟩
      rintro ⟨doc', js', hok, hsome⟩
      obtain ⟨rfl, rfl⟩ := Prod.mk.inj (Except.ok.inj hok)
      rw [hch] at hsome
      exact Option.noConfusion hsome
    | some ch =>
      dsimp only
      by_cases heq : ch = expected
      · rw [if_pos heq]
        exact ⟨fun _ => ⟨doc, js, rfl, heq ▸ hch⟩, fun _ => rfl⟩
      · rw [if_neg heq]
        refine ⟨fun h => by simp at h, ?_⟩
        rintro ⟨doc', js', hok, hsome⟩
        obtain ⟨rfl, rfl⟩ := Prod.mk.inj (Except.ok.inj hok)
        rw [hch] at hsome
        exact absurd (Option.some.inj hsome) heq

/-- Primitive instantiation in which the sample payload `"e30="` decodes to
the empty JSON document (as the real libraries would). -/
def primsSample : Prims where
  base64_decode := fun s =>
    if s = "e30=" then .ok [123, 125]
    else if s = "bm90Z3o=" then .ok [110, 111, 116, 103, 122]
    else .error (.binasciiError "Invalid base64-encoded string")
  gzip_decompress := fun bs =>
    if bs = [123, 125] then .ok "\x7b\x7d"
    else .error (.badGzipFile "Not a gzipped file")
  json_parse := fun s =>
    if s = "\x7b\x7d" then .ok (.obj [])
    else .error (.jsonDecodeError "Expecting value: line 1 column 1 (char 0)")

set_option maxRecDepth 8000 in
/-- Witness for C1 at a concrete payload, primitive instantiation and
expected hash (the SHA-256 of the minified empty document). -/
theorem C1_verify_integrity_witness :
    (verify_integrity primsSample "e30="
      "44136fa355b3678a1146ad16f7e8649e94fb4fc21fe77e8310c060f61caaff8a").1 = true :=
  (C1_verify_integrity primsSample "e30="
      "44136fa355b3678a1146ad16f7e8649e94fb4fc21fe77e8310c060f61caaff8a").1.mpr
    ⟨Json.obj [], "\x7b\x7d", by rfl, by decide⟩

/-- Each wrapping message is the stage prefix followed by the original
exception's message. -/
theorem wrapMsg_preserves_cause (e : PyExc) : ∃ pre, wrapMsg e = pre ++ excMsg e := by
  cases e with
  | binasciiError m => exact ⟨"Base64 decoding failed: ", rfl⟩
  | badGzipFile m => exact ⟨"GZIP decompression failed (not a valid gzip file): ", rfl⟩
  | jsonDecodeError m => exact ⟨"JSON parsing failed: ", rfl⟩
  | otherExc m => exact ⟨"Payload corruption or invalid format: ", rfl⟩

/-- C2: whichever step of the decode chain fails — Base64 decoding (invalid
alphabet or padding per the library's contract), GZIP decompression (bad
magic bytes or corrupt stream), JSON parsing (malformed syntax), or any
other exception — `decode_gcuis_payload` turns the exception into the
`FormatError` kind (Python `ValueError`) whose message preserves the
original cause. -/
theorem C2_decode_error_wrapping (P : Prims) (payload : String) :
    (∀ e, P.base64_decode (pyStrip payload) = .error e →
      decode_gcuis_payload P payload = .error ⟨wrapMsg e⟩ ∧
        ∃ pre, wrapMsg e = pre ++ excMsg e) ∧
    (∀ bs e, P.base64_decode (pyStrip payload) = .ok bs →
      P.gzip_decompress bs = .error e →
      decode_gcuis_payload P payload = .error ⟨wrapMsg e⟩ ∧
        ∃ pre, wrapMsg e = pre ++ excMsg e) ∧
    (∀ bs js e, P.base64_decode (pyStrip payload) = .ok bs →
      P.gzip_decompress bs = .ok js → P.json_parse js = .error e →
      decode_gcuis_payload P payload = .error ⟨wrapMsg e⟩ ∧
        ∃ pre, wrapMsg e = pre ++ excMsg e) := by
  refine ⟨fun e he => ⟨?_, wrapMsg_preserves_cause e⟩,
          fun bs e hb he => ⟨?_, wrapMsg_preserves_cause e⟩,
          fun bs js e hb hg he => ⟨?_, wrapMsg_preserves_cause e⟩⟩
  · unfold decode_gcuis_payload
    rw [he]
  · unfold decode_gcuis_payload
    rw [hb]
    dsimp only
    rw [he]
  · unfold decode_gcuis_payload
    rw [hb]
    dsimp only
    rw [hg]
    dsimp only
    rw [he]

/-- Witness for C2: a concrete input on which the GZIP stage of
`primsSample` fails, producing the wrapped `FormatError`. -/
theorem C2_decode_error_wrapping_witness :
    decode_gcuis_payload primsSample "bm90Z3o=" =
      .error ⟨"GZIP decompression failed (not a valid gzip file): Not a gzipped file"⟩ :=
  ((C2_decode_error_wrapping primsSample "bm90Z3o=").2.1 [110, 111, 116, 103, 122]
      (.badGzipFile "Not a gzipped file") (by rfl) (by rfl)).1

/-- C9: on a dict the canonical hash is the hash of the minified JSON
serialization (separators `","`/`":"`, non-ASCII unescaped), so hashing a
dict and hashing its minified serialization agree; on a string the UTF-8
bytes are hashed verbatim, with no re-minification or validation. -/
theorem C9_gc_hash_minified :
    (∀ kvs, calculate_gc_hash (Json.obj kvs) =
      calculate_gc_hash (Json.str (jsonMin (Json.obj kvs)))) ∧
    (∀ s, calculate_gc_hash (Json.str s) = some (sha256hex (utf8 s))) :=
  ⟨fun _ => rfl, fun _ => rfl⟩

/-- C10: surrounding whitespace never changes the result of the decode
chain — the payload is stripped before Base64 decoding. -/
theorem C10_decode_strips_whitespace (P : Prims) (pad payload pad' : String)
    (h : ∀ c ∈ pad.data, isPySpace c = true)
    (h' : ∀ c ∈ pad'.data, isPySpace c = true) :
    decode_gcuis_payload P (pad ++ payload ++ pad') =
      decode_gcuis_payload P payload := by
  unfold decode_gcuis_payload
  rw [pyStrip_pad pad payload pad' h h']

/-- Witness for C10: tab/newline padding around the sample payload decodes
identically to the bare payload. -/
theorem C10_decode_strips_whitespace_witness :
    decode_gcuis_payload primsSample (" \t" ++ "e30=" ++ "\n") =
      decode_gcuis_payload primsSample "e30=" :=
  C10_decode_strips_whitespace primsSample " \t" "e30=" "\n"
    (by decide) (by decide)

/-! ## Helper lemmas about `stripWith` -/

theorem stripWith_eq_nil_of_all {p : Char → Bool} (l : List Char)
    (h : ∀ c ∈ l, p c = true) : stripWith p l = [] := by
  unfold stripWith
  rw [List.dropWhile_eq_nil_iff.mpr h]
  exact List.rdropWhile_nil p

theorem stripWith_sublist (p : Char → Bool) (l : List Char) :
    List.Sublist (stripWith p l) l :=
  ((List.rdropWhile_prefix p (l.dropWhile p)).sublist).trans (List.dropWhile_sublist p)

theorem stripWith_head?_not {p : Char → Bool} {l : List Char} {c : Char}
    (h : (stripWith p l).head? = some c) : p c = false := by
  unfold stripWith at h
  have hpre := List.rdropWhile_prefix p (l.dropWhile p)
  cases hr : List.rdropWhile p (l.dropWhile p) with
  | nil => rw [hr] at h; exact Option.noConfusion h
  | cons c0 cs =>
    rw [hr] at h
    obtain rfl : c = c0 := (Option.some.inj h).symm
    rw [hr] at hpre
    obtain ⟨t, ht⟩ := hpre
    have hh := List.head?_dropWhile_not p l
    rw [← ht] at hh
    simpa using hh

theorem stripWith_getLast?_not {p : Char → Bool} {l : List Char} {c : Char}
    (h : (stripWith p l).getLast? = some c) : p c = false := by
  unfold stripWith at h
  by_cases hne : List.rdropWhile p (l.dropWhile p) = []
  · rw [hne] at h
    exact Option.noConfusion h
  · have hlast := List.rdropWhile_last_not p (l.dropWhile p) hne
    rw [List.getLast?_eq_getLast _ hne] at h
    rw [Option.some.inj h] at hlast
    exact eq_false_of_ne_true hlast

theorem sanitizeCore_congr (f g : Char → Bool) (cand : List Char)
    (h : ∀ c ∈ cand, f c = g c) : sanitizeCore f cand = sanitizeCore g cand := by
  unfold sanitizeCore
  rw [List.map_congr_left fun c hc => by rw [h c hc]]

theorem sanitize_artifact_id_congr (f g : Char → Bool) (aid : Option String) (fb : String)
    (h : ∀ c ∈ (pyStrip (pyOr3 aid fb)).data, f c = g c) :
    sanitize_artifact_id f aid fb = sanitize_artifact_id g aid fb :=
  sanitizeCore_congr f g _ h

theorem sanitizeCore_chars (isalnum : Char → Bool)
    (hagree : ∀ c : Char, c.toNat < 128 → isalnum c = pyIsAlnumAscii c) (cand : List Char) :
    ∀ c ∈ (sanitizeCore isalnum cand).data, (isalnum c || c = '-' || c = '_') = true := by
  intro c hc
  have hgc : ∀ x ∈ "golden_codex".data,
      x.toNat < 128 ∧ (pyIsAlnumAscii x || x = '-' || x = '_') = true := by decide
  unfold sanitizeCore at hc
  dsimp only at hc
  by_cases hnil : stripWith (fun c => c = '_')
      (cand.map fun c => if isalnum c || c = '-' || c = '_' then c else '_') = []
  · rw [if_pos hnil] at hc
    obtain ⟨hlt, hp⟩ := hgc c hc
    rw [hagree c hlt]
    exact hp
  · rw [if_neg hnil] at hc
    have hc' : c ∈ cand.map fun c => if isalnum c || c = '-' || c = '_' then c else '_' :=
      (stripWith_sublist _ _).subset hc
    obtain ⟨c0, -, hmap⟩ := List.mem_map.mp hc'
    by_cases hk : (isalnum c0 || c0 = '-' || c0 = '_') = true
    · rw [if_pos hk] at hmap
      rw [← hmap]
      exact hk
    · rw [if_neg hk] at hmap
      rw [← hmap]
      simp

theorem sanitizeCore_no_edge_underscore (isalnum : Char → Bool) (cand : List Char) :
    (sanitizeCore isalnum cand).data.head? ≠ some '_' ∧
    (sanitizeCore isalnum cand).data.getLast? ≠ some '_' := by
  unfold sanitizeCore
  dsimp only
  by_cases hnil : stripWith (fun c => c = '_')
      (cand.map fun c => if isalnum c || c = '-' || c = '_' then c else '_') = []
  · rw [if_pos hnil]
    exact ⟨by decide, by decide⟩
  · rw [if_neg hnil]
    constructor
    · intro h
      have := stripWith_head?_not h
      simp at this
    · intro h
      have := stripWith_getLast?_not h
      simp at this

/-! ## Claims about `sanitize_artifact_id` -/

/-- C7 counterexample: the code maps `"My Art! 2024"` to `"My_Art__2024"`
(the `!` and the following space are each replaced, producing a double
underscore), not to `"My_Art_2024"`; a whitespace-only artifact id is
truthy in Python, so it does not fall back to the provided default but
collapses to the fixed literal; and Python's `str.isalnum` is
Unicode-aware (`'é'.isalnum()` is `True`), so `'é'` — a character outside
`[A-Za-z0-9_-]` — is kept, not replaced.  The first four parts
instantiate the isalnum parameter with its ASCII fragment, exact there
since those inputs are ASCII; the last instantiates it with the fragment
extended by `'é'`, matching CPython's behaviour on that input. -/
theorem C7_sanitize_counterexample :
    sanitize_artifact_id pyIsAlnumAscii (some "My Art! 2024") "fallback" = "My_Art__2024" ∧
    sanitize_artifact_id pyIsAlnumAscii (some "My Art! 2024") "fallback" ≠ "My_Art_2024" ∧
    sanitize_artifact_id pyIsAlnumAscii (some "   ") "output" = "golden_codex" ∧
    sanitize_artifact_id pyIsAlnumAscii (some "   ") "output" ≠ "output" ∧
    sanitize_artifact_id (fun c => pyIsAlnumAscii c || c = 'é') (some "é") "fallback" = "é" := by
  decide

/-- C7 as amended, for every isalnum predicate that agrees with Python's
`str.isalnum` on the ASCII range: the example input yields
`"My_Art__2024"` whatever the fallback; a non-ASCII alphanumeric such as
`'é'` (accepted by Python's Unicode-aware `isalnum`) is kept, not
replaced; a nonempty whitespace-only artifact id yields the fixed literal
`"golden_codex"` regardless of the fallback; an absent artifact id
behaves exactly like using the fallback as the artifact id (and with an
empty fallback yields the fixed literal); every character of the result
is accepted by `isalnum` or is `-` or `_`; and the result neither starts
nor ends with `_`. -/
theorem C7_sanitize_amended (isalnum : Char → Bool)
    (hagree : ∀ c : Char, c.toNat < 128 → isalnum c = pyIsAlnumAscii c) :
    (∀ fb, sanitize_artifact_id isalnum (some "My Art! 2024") fb = "My_Art__2024") ∧
    (∀ fb, isalnum 'é' = true → sanitize_artifact_id isalnum (some "é") fb = "é") ∧
    (∀ s fb, s ≠ "" → (∀ c ∈ s.data, isPySpace c = true) →
      sanitize_artifact_id isalnum (some s) fb = "golden_codex") ∧
    (∀ fb, sanitize_artifact_id isalnum none fb = sanitize_artifact_id isalnum (some fb) "") ∧
    sanitize_artifact_id isalnum none "" = "golden_codex" ∧
    (∀ aid fb c, c ∈ (sanitize_artifact_id isalnum aid fb).data →
      (isalnum c || c = '-' || c = '_') = true) ∧
    (∀ aid fb, (sanitize_artifact_id isalnum aid fb).data.head? ≠ some '_' ∧
      (sanitize_artifact_id isalnum aid fb).data.getLast? ≠ some '_') := by
  refine ⟨fun fb => ?_, fun fb hacc => ?_, fun s fb hs hsp => ?_, fun fb => ?_, ?_,
         fun aid fb c hc => sanitizeCore_chars isalnum hagree _ c hc,
         fun aid fb => sanitizeCore_no_edge_underscore isalnum _⟩
  · unfold sanitize_artifact_id
    rw [show pyOr3 (some "My Art! 2024") fb = "My Art! 2024" from by
      simp only [pyOr3]; rw [if_neg (by decide)]]
    rw [sanitizeCore_congr isalnum pyIsAlnumAscii (pyStrip "My Art! 2024").data
      (fun c hc => hagree c
        ((by decide : ∀ x ∈ (pyStrip "My Art! 2024").data, x.toNat < 128) c hc))]
    decide
  · unfold sanitize_artifact_id
    rw [show pyOr3 (some "é") fb = "é" from by simp only [pyOr3]; rw [if_neg (by decide)]]
    rw [show (pyStrip "é").data = ['é'] from by decide]
    unfold sanitizeCore
    dsimp only
    rw [show ['é'].map (fun c => if isalnum c || c = '-' || c = '_' then c else '_') = ['é']
      from by simp [hacc]]
    decide
  · unfold sanitize_artifact_id
    rw [show pyOr3 (some s) fb = s from by simp only [pyOr3]; rw [if_neg hs]]
    have hd : (pyStrip s).data = [] := by
      unfold pyStrip
      rw [stripWith_eq_nil_of_all s.data hsp]
    rw [hd]
    rfl
  · by_cases hfb : fb = "" <;> simp [sanitize_artifact_id, pyOr3, hfb]
  · unfold sanitize_artifact_id
    rw [show pyOr3 none "" = "golden_codex" from by simp [pyOr3]]
    rw [sanitizeCore_congr isalnum pyIsAlnumAscii (pyStrip "golden_codex").data
      (fun c hc => hagree c
        ((by decide : ∀ x ∈ (pyStrip "golden_codex").data, x.toNat < 128) c hc))]
    decide

/-- Witness for C7's amended claim at the ASCII fragment itself: a
whitespace-only artifact id ignores the nonempty fallback and collapses
to the fixed literal. -/
theorem C7_sanitize_amended_witness :
    sanitize_artifact_id pyIsAlnumAscii (some " ") "kept-fallback" = "golden_codex" :=
  (C7_sanitize_amended pyIsAlnumAscii (fun _ _ => rfl)).2.2.1 " " "kept-fallback"
    (by decide) (by decide)

/-! ## Claims about registry matching -/

/-- C3 counterexample: a transport failure whose exception carries an
empty message (Python permits `RequestException()` with `str(e) = ""`) is
returned as a structured failure whose error string is empty, refuting the
claim that all three failure cases carry a non-empty error message. -/
theorem C3_match_hash_counterexample :
    (match_hash "deadbeef" (.requestException "") 85).success = false ∧
    (match_hash "deadbeef" (.requestException "") 85).error = some "" :=
  ⟨rfl, rfl⟩

/-- C3 as amended: `match_hash` never raises — each of the three failure
cases returns a structured result with `success = false` and an empty
match list; the error message is the non-empty fixed string on a timeout,
the non-empty `API error <status>: <text>` string on a non-200 response,
and the exception's own message (possibly empty) on a transport failure;
a 200 response yields `success = true` with the body's candidate list
verbatim plus index statistics. -/
theorem C3_match_hash_amended (h : String) (t : Rat) :
    ((match_hash h .timeout t).success = false ∧
      (match_hash h .timeout t).«matches» = [] ∧
      (match_hash h .timeout t).error = some "Request timed out" ∧
      "Request timed out" ≠ "") ∧
    (∀ m, (match_hash h (.requestException m) t).success = false ∧
      (match_hash h (.requestException m) t).«matches» = [] ∧
      (match_hash h (.requestException m) t).error = some m) ∧
    (∀ status text body, status ≠ 200 →
      (match_hash h (.response status text body) t).success = false ∧
      (match_hash h (.response status text body) t).«matches» = [] ∧
      (match_hash h (.response status text body) t).error =
        some ("API error " ++ toString status ++ ": " ++ text) ∧
      ("API error " ++ toString status ++ ": " ++ text) ≠ "") ∧
    (∀ text body,
      (match_hash h (.response 200 text body) t).success = true ∧
      (match_hash h (.response 200 text body) t).«matches» = body.«matches».getD [] ∧
      (match_hash h (.response 200 text body) t).error = none ∧
      (match_hash h (.response 200 text body) t).index_stats =
        some (body.index_stats.getD (.obj [])) ∧
      (match_hash h (.response 200 text body) t).threshold = some (body.threshold.getD t) ∧
      (match_hash h (.response 200 text body) t).query_hash = some h) := by
  refine ⟨⟨rfl, rfl, rfl, by decide⟩, fun m => ⟨rfl, rfl, rfl⟩,
          fun status text body hst => ?_, fun text body => ?_⟩
  · unfold match_hash
    dsimp only
    rw [if_pos hst]
    refine ⟨rfl, rfl, rfl, fun hemp => ?_⟩
    have := congrArg String.length hemp
    simp [String.length_append] at this
    exact absurd this.1.1.1 (by decide)
  · unfold match_hash
    dsimp only
    rw [if_neg (show ¬(200 : Nat) ≠ 200 by simp)]
    exact ⟨rfl, rfl, rfl, rfl, rfl, rfl⟩

/-- Witness for C3's amended claim at a concrete 404 response. -/
theorem C3_match_hash_amended_witness :
    (match_hash "abc" (.response 404 "not found" ⟨none, none, none⟩) 85).success = false ∧
    (match_hash "abc" (.response 404 "not found" ⟨none, none, none⟩) 85).«matches» = [] ∧
    (match_hash "abc" (.response 404 "not found" ⟨none, none, none⟩) 85).error =
      some ("API error " ++ toString 404 ++ ": " ++ "not found") ∧
    ("API error " ++ toString 404 ++ ": " ++ "not found") ≠ "" :=
  (C3_match_hash_amended "abc" 85).2.2.1 404 "not found" ⟨none, none, none⟩ (by decide)

/-- C4: when hashing succeeds and the registry query succeeds with a
non-empty match list whose first entry is a match record (a dict),
`verify_provenance` returns `verified = true` with the first match's
similarity as confidence, its identifier, title, artist and provenance
URI promoted to the top level, and the remaining matches as alternates; a
successful query with an empty list yields `verified = false` with the
no-match message; a failed query yields `verified = false` carrying the
query's error; and a non-dict first match makes `best.get` raise, which
the function reports as `verified = false` with a
`Verification failed: ...` error. -/
theorem C4_verify_provenance (phash : String) (outcome : HttpOutcome) (t : Rat) :
    (∀ bkvs rest, (match_hash phash outcome t).success = true →
      (match_hash phash outcome t).«matches» = Json.obj bkvs :: rest →
      verify_provenance (.ok phash) outcome t =
        ⟨true, "hash", jGetD (.obj bkvs) "similarity" (.num 0),
         jGetD (.obj bkvs) "gcx_id" .null, jGetD (.obj bkvs) "title" .null,
         jGetD (.obj bkvs) "artist" .null, jGetD (.obj bkvs) "provenance_uri" .null,
         some phash, some (.obj bkvs), some rest,
         some ((match_hash phash outcome t).index_stats.getD (.obj [])), none, none⟩) ∧
    ((match_hash phash outcome t).success = true →
      (match_hash phash outcome t).«matches» = [] →
      verify_provenance (.ok phash) outcome t =
        ⟨false, "hash", none, none, none, none, none, some phash, none, none,
         some ((match_hash phash outcome t).index_stats.getD (.obj [])), none,
         some "No matching artwork found in registry"⟩) ∧
    ((match_hash phash outcome t).success = false →
      verify_provenance (.ok phash) outcome t =
        ⟨false, "hash", none, none, none, none, none, some phash, none, none, none,
         some ((match_hash phash outcome t).error.getD "Unknown error"), none⟩) ∧
    (∀ best rest, (match_hash phash outcome t).success = true →
      (match_hash phash outcome t).«matches» = best :: rest →
      (∀ bkvs, best ≠ Json.obj bkvs) →
      verify_provenance (.ok phash) outcome t =
        ⟨false, "hash", none, none, none, none, none, none, none, none, none,
         some ("Verification failed: '" ++ pyTypeName best ++
           "' object has no attribute 'get'"), none⟩) := by
  refine ⟨fun bkvs rest hs hm => ?_, fun hs hm => ?_, fun hs => ?_,
          fun best rest hs hm hno => ?_⟩
  · unfold verify_provenance
    dsimp only
    rw [hs]
    rw [if_neg (by simp)]
    rw [hm]
  · unfold verify_provenance
    dsimp only
    rw [hs]
    rw [if_neg (by simp)]
    rw [hm]
  · unfold verify_provenance
    dsimp only
    rw [hs]
    rw [if_pos rfl]
  · unfold verify_provenance
    dsimp only
    rw [hs]
    rw [if_neg (by simp)]
    rw [hm]
    cases best with
    | obj bkvs => exact absurd rfl (hno bkvs)
    | null => rfl
    | bool b => rfl
    | num n => rfl
    | str s => rfl
    | arr xs => rfl

/-- Witness for C4 at a concrete successful registry response carrying two
match records. -/
theorem C4_verify_provenance_witness :
    verify_provenance (.ok "abc")
      (.response 200 "ok"
        ⟨some [Json.obj [("similarity", Json.num 97), ("gcx_id", Json.str "GCX-1")],
               Json.obj [("similarity", Json.num 90)]], none, none⟩) 85 =
      ⟨true, "hash", some (Json.num 97), some (Json.str "GCX-1"), some Json.null,
       some Json.null, some Json.null, some "abc",
       some (Json.obj [("similarity", Json.num 97), ("gcx_id", Json.str "GCX-1")]),
       some [Json.obj [("similarity", Json.num 90)]], some (Json.obj []), none, none⟩ := by
  have := (C4_verify_provenance "abc"
    (.response 200 "ok"
      ⟨some [Json.obj [("similarity", Json.num 97), ("gcx_id", Json.str "GCX-1")],
             Json.obj [("similarity", Json.num 90)]], none, none⟩) 85).1
    [("similarity", Json.num 97), ("gcx_id", Json.str "GCX-1")]
    [Json.obj [("similarity", Json.num 90)]] rfl rfl
  rw [this]
  rfl

/-! ## Helper lemmas about similarity -/

theorem hexBits_length : ∀ (l : List Char) (bs : List Bool),
    hexBits l = some bs → bs.length = 4 * l.length := by
  intro l
  induction l with
  | nil =>
    intro bs h
    simp only [hexBits] at h
    rw [← Option.some.inj h]
    rfl
  | cons c cs ih =>
    intro bs h
    simp only [hexBits] at h
    cases hv : hexDigitVal c with
    | none => rw [hv] at h; exact Option.noConfusion h
    | some v =>
      rw [hv] at h
      cases hb : hexBits cs with
      | none => rw [hb] at h; exact Option.noConfusion h
      | some bs0 =>
        rw [hb] at h
        dsimp only at h
        rw [← Option.some.inj h]
        have := ih bs0 hb
        simp only [List.length_append, List.length_cons, bits4, this]
        simp
        omega

theorem hexBits_total : ∀ (l : List Char),
    (∀ c ∈ l, (hexDigitVal c).isSome = true) → ∃ bs, hexBits l = some bs := by
  intro l
  induction l with
  | nil => exact fun _ => ⟨[], rfl⟩
  | cons c cs ih =>
    intro h
    obtain ⟨v, hv⟩ := Option.isSome_iff_exists.mp (h c (List.mem_cons_self c cs))
    obtain ⟨bs, hbs⟩ := ih fun x hx => h x (List.mem_cons_of_mem c hx)
    exact ⟨bits4 v ++ bs, by simp only [hexBits, hv, hbs]⟩

theorem hammingDist_self (a : List Bool) : hammingDist a a = 0 := by
  induction a with
  | nil => rfl
  | cons x xs ih =>
    simp only [hammingDist, List.zipWith_cons_cons] at ih ⊢
    simp [List.count_cons, ih, List.count_replicate]

theorem hammingDist_comm (a : List Bool) : ∀ b, hammingDist a b = hammingDist b a := by
  induction a with
  | nil => intro b; cases b <;> rfl
  | cons x xs ih =>
    intro b
    cases b with
    | nil => rfl
    | cons y ys =>
      have hxy : (x != y) = (y != x) := by cases x <;> cases y <;> rfl
      simp only [hammingDist, List.zipWith_cons_cons, List.count_cons, hxy]
      have := ih ys
      simp only [hammingDist] at this
      rw [this]

theorem hammingDist_le (a b : List Bool) : hammingDist a b ≤ a.length :=
  le_trans (List.count_le_length _ _)
    (le_trans (le_of_eq (List.length_zipWith _ _ _)) (min_le_left _ _))

theorem round2_le_round2 {x y : Rat} (h : x ≤ y) : round2 x ≤ round2 y := by
  unfold round2
  have hr : round (x * 100) ≤ round (y * 100) := by
    rw [round_eq, round_eq]
    exact Int.floor_le_floor (by linarith)
  have h100 : (0 : Rat) < 100 := by norm_num
  exact (div_le_div_iff_of_pos_right h100).mpr (Int.cast_le.mpr hr)

theorem round2_hundred : round2 100 = 100 := by
  unfold round2
  rw [show ((100 : Rat) * 100) = ((10000 : Int) : Rat) by norm_num, round_intCast]
  norm_num

theorem round2_zero : round2 0 = 0 := by
  unfold round2
  rw [show ((0 : Rat) * 100) = ((0 : Int) : Rat) by norm_num, round_intCast]
  norm_num

/-! ## Claims about `calculate_hash_similarity` -/

/-- C5: for equal-length nonempty hex hashes, the similarity of a hash with
itself is exactly 100, the similarity is symmetric, and the value is the
claimed rounded normalized Hamming formula (4 bits per hex digit) lying in
the range 0 to 100.  The hex parsing and Hamming subtraction of the
third-party imagehash library are modelled from the spec. -/
theorem C5_similarity_properties (a b : String)
    (ha : ∀ c ∈ a.data, (hexDigitVal c).isSome = true)
    (hb : ∀ c ∈ b.data, (hexDigitVal c).isSome = true)
    (hlen : a.length = b.length) (hpos : a.length ≠ 0) :
    calculate_hash_similarity a a = .ok 100 ∧
    calculate_hash_similarity a b = calculate_hash_similarity b a ∧
    ∃ v ba bb, hex_to_hash a = some ba ∧ hex_to_hash b = some bb ∧
      calculate_hash_similarity a b = .ok v ∧
      v = round2 ((1 - (hammingDist ba bb : Rat) / ((a.length * 4 : Nat) : Rat)) * 100) ∧
      0 ≤ v ∧ v ≤ 100 := by
  obtain ⟨ba, hba⟩ := hexBits_total a.data ha
  obtain ⟨bb, hbb⟩ := hexBits_total b.data hb
  have hlba : ba.length = 4 * a.length := hexBits_length a.data ba hba
  have hlbb : bb.length = 4 * b.length := hexBits_length b.data bb hbb
  have hlen' : ba.length = bb.length := by rw [hlba, hlbb, hlen]
  have hm : a.length * 4 ≠ 0 := Nat.mul_ne_zero hpos (by decide)
  have hm_pos : (0 : Rat) < ((a.length * 4 : Nat) : Rat) := by
    exact_mod_cast Nat.pos_of_ne_zero hm
  refine ⟨?_, ?_, ?_⟩
  · unfold calculate_hash_similarity hex_to_hash
    rw [hba]
    dsimp only
    rw [if_pos rfl, if_neg hm]
    have : ((hammingDist ba ba : Nat) : Rat) = 0 := by
      rw [hammingDist_self]
      norm_num
    rw [this]
    rw [zero_div, sub_zero, one_mul, round2_hundred]
  · unfold calculate_hash_similarity hex_to_hash
    rw [hba, hbb]
    dsimp only
    rw [if_pos hlen', if_pos hlen'.symm]
    have hmb : b.length * 4 ≠ 0 := by rw [← hlen]; exact hm
    rw [if_neg hm, if_neg hmb]
    rw [hammingDist_comm, hlen]
  · refine ⟨round2 ((1 - (hammingDist ba bb : Rat) /
      ((a.length * 4 : Nat) : Rat)) * 100), ba, bb, hba, hbb, ?_, rfl, ?_, ?_⟩
    · unfold calculate_hash_similarity hex_to_hash
      rw [hba, hbb]
      dsimp only
      rw [if_pos hlen', if_neg hm]
    · have h0 : (0 : Rat) ≤ (1 - (hammingDist ba bb : Rat) /
        ((a.length * 4 : Nat) : Rat)) * 100 := by
        have hdl : (hammingDist ba bb : Rat) ≤ ((a.length * 4 : Nat) : Rat) := by
          have : hammingDist ba bb ≤ a.length * 4 := by
            have := hammingDist_le ba bb
            omega
          exact_mod_cast this
        have : (hammingDist ba bb : Rat) / ((a.length * 4 : Nat) : Rat) ≤ 1 :=
          (div_le_one hm_pos).mpr hdl
        nlinarith
      calc (0 : Rat) = round2 0 := round2_zero.symm
        _ ≤ _ := round2_le_round2 h0
    · have h100 : (1 - (hammingDist ba bb : Rat) /
        ((a.length * 4 : Nat) : Rat)) * 100 ≤ 100 := by
        have hge : (0 : Rat) ≤ (hammingDist ba bb : Rat) / ((a.length * 4 : Nat) : Rat) :=
          div_nonneg (by positivity) (le_of_lt hm_pos)
        nlinarith
      calc round2 _ ≤ round2 100 := round2_le_round2 h100
        _ = 100 := round2_hundred

/-- Witness for C5 at the concrete hash `"ff"`. -/
theorem C5_similarity_properties_witness :
    calculate_hash_similarity "ff" "ff" = .ok 100 :=
  (C5_similarity_properties "ff" "ff" (by decide) (by decide) rfl (by decide)).1

/-- C6: for valid hex hashes of different lengths the similarity
computation fails with the `ValidationError` kind (the imagehash
subtraction's shape check, modelled from the spec). -/
theorem C6_similarity_length_mismatch (a b : String)
    (ha : ∀ c ∈ a.data, (hexDigitVal c).isSome = true)
    (hb : ∀ c ∈ b.data, (hexDigitVal c).isSome = true)
    (hne : a.length ≠ b.length) :
    calculate_hash_similarity a b =
      .error (.validationError "ImageHashes must be of the same shape") := by
  obtain ⟨ba, hba⟩ := hexBits_total a.data ha
  obtain ⟨bb, hbb⟩ := hexBits_total b.data hb
  have hlba : ba.length = 4 * a.length := hexBits_length a.data ba hba
  have hlbb : bb.length = 4 * b.length := hexBits_length b.data bb hbb
  unfold calculate_hash_similarity hex_to_hash
  rw [hba, hbb]
  dsimp only
  rw [if_neg (by rw [hlba, hlbb]; omega)]

/-- Witness for C6 at concrete hashes of lengths 1 and 2. -/
theorem C6_similarity_length_mismatch_witness :
    calculate_hash_similarity "a" "bb" =
      .error (.validationError "ImageHashes must be of the same shape") :=
  C6_similarity_length_mismatch "a" "bb" (by decide) (by decide) (by decide)

/-! ## Claims about the summary layout -/

theorem summary_structure (kvs : List (String × Json)) (c e s : Option String)
    (L : List String) (hL : get_summary_lines (.obj kvs) c e s = some L) :
    ∃ mid, L = [sep60, "📊 Golden Codex Summary", sep60,
      "Schema Version:  " ++ pyStr ((jLookup kvs "schemaVersion").getD (.str "N/A")),
      "Agent:           " ++ pyStr ((jLookup kvs "agent").getD (.str "N/A")),
      "Artifact ID:     " ++ pyStr ((jLookup kvs "artifactId").getD (.str "N/A")),
      "Codex ID:        " ++ pyStr ((jLookup kvs "codexId").getD (.str "N/A"))] ++
      mid ++ [sep60] ∧
      (jLookup kvs "timestamp" = none → jLookup kvs "coreIdentity" = none →
       jLookup kvs "archival" = none → c = none → e = none → s = none → mid = []) := by
  unfold get_summary_lines at hL
  dsimp only at hL
  cases hts : timestampLines kvs with
  | none => rw [hts] at hL; exact Option.noConfusion hL
  | some ts =>
    cases hci : coreIdentityLines kvs with
    | none => rw [hts, hci] at hL; exact Option.noConfusion hL
    | some ci =>
      cases har : archivalLines kvs with
      | none => rw [hts, hci, har] at hL; exact Option.noConfusion hL
      | some ar =>
        rw [hts, hci, har] at hL
        dsimp only at hL
        refine ⟨ts ++ ci ++ ar ++ optLine "Calculated Hash: " c ++
          optLine "Embedded Hash:   " e ++ optLine "Soulmark:        " s,
          ?_, fun h1 h2 h3 hc he hs => ?_⟩
        · rw [← Option.some.inj hL]
          simp [List.append_assoc]
        · have hts' : ts = [] := by
            have : timestampLines kvs = some [] := by unfold timestampLines; rw [h1]
            exact Option.some.inj (hts.symm.trans this)
          have hci' : ci = [] := by
            have : coreIdentityLines kvs = some [] := by unfold coreIdentityLines; rw [h2]
            exact Option.some.inj (hci.symm.trans this)
          have har' : ar = [] := by
            have : archivalLines kvs = some [] := by unfold archivalLines; rw [h3]
            exact Option.some.inj (har.symm.trans this)
          subst hc he hs
          rw [hts', hci', har']
          rfl

/-- C8 counterexample: for the document
`\x7b"schemaVersion":"1.0","artifactId":"A1"\x7d` the summary consists of
exactly eight lines in which the absent `timestamp`, `coreIdentity` and
`archival` sections are omitted outright — no line for the recognized
field `timestamp.initiated` appears at all (no line starts with the
characters `Initiated:`), refuting the claim that absent recognized fields
are rendered with a placeholder rather than omitted. -/
theorem C8_summary_counterexample :
    get_summary_lines
        (Json.obj [("schemaVersion", Json.str "1.0"), ("artifactId", Json.str "A1")])
        none none none =
      some [sep60, "📊 Golden Codex Summary", sep60, "Schema Version:  1.0",
            "Agent:           N/A", "Artifact ID:     A1", "Codex ID:        N/A", sep60] ∧
    (((get_summary_lines
        (Json.obj [("schemaVersion", Json.str "1.0"), ("artifactId", Json.str "A1")])
        none none none).getD []).any fun l => "Initiated:".data.isPrefixOf l.data) = false := by
  exact ⟨by decide, by decide⟩

/-- C8 as amended: the summary has a deterministic layout — it opens with
the two separator lines around the title, positions 3 to 6 always hold the
four top-level recognized fields with the `N/A` placeholder when absent,
and it closes with a separator; the lines of the nested `timestamp`,
`coreIdentity` and `archival` sections are included only when the section
key is present (so with all three absent and no hashes the summary is
exactly 8 lines); for the example document the companion file is named
`A1_meta.txt` and holds the eight fixed lines plus the calculated-hash
line, for every `str.isalnum` predicate agreeing with the ASCII fragment
on the ASCII range. -/
theorem C8_summary_amended :
    (∀ kvs c e s L, get_summary_lines (Json.obj kvs) c e s = some L →
      (L.take 7 = [sep60, "📊 Golden Codex Summary", sep60,
        "Schema Version:  " ++ pyStr ((jLookup kvs "schemaVersion").getD (.str "N/A")),
        "Agent:           " ++ pyStr ((jLookup kvs "agent").getD (.str "N/A")),
        "Artifact ID:     " ++ pyStr ((jLookup kvs "artifactId").getD (.str "N/A")),
        "Codex ID:        " ++ pyStr ((jLookup kvs "codexId").getD (.str "N/A"))] ∧
       L.getLast? = some sep60) ∧
      (jLookup kvs "timestamp" = none → jLookup kvs "coreIdentity" = none →
       jLookup kvs "archival" = none → c = none → e = none → s = none →
       L.length = 8)) ∧
    (∀ isalnum : Char → Bool, (∀ ch : Char, ch.toNat < 128 → isalnum ch = pyIsAlnumAscii ch) →
      ∀ h : String, h ≠ "" →
      write_meta_file isalnum
          (Json.obj [("schemaVersion", Json.str "1.0"), ("artifactId", Json.str "A1")])
          "out" h none none =
        some ("A1_meta.txt",
          String.intercalate "\n" [sep60, "📊 Golden Codex Summary", sep60,
            "Schema Version:  1.0", "Agent:           N/A", "Artifact ID:     A1",
            "Codex ID:        N/A", "Calculated Hash: " ++ h, sep60] ++ "\n")) := by
  constructor
  · intro kvs c e s L hL
    obtain ⟨mid, hLeq, hmid⟩ := summary_structure kvs c e s L hL
    subst hLeq
    refine ⟨⟨rfl, ?_⟩, fun h1 h2 h3 hc he hs => ?_⟩
    · rw [show ∀ (front : List String) (m : List String),
        front ++ m ++ [sep60] = (front ++ m) ++ [sep60] from fun _ _ => by
          rw [List.append_assoc]]
      exact List.getLast?_concat _
    · rw [hmid h1 h2 h3 hc he hs]
      rfl
  · intro isalnum hagree h hne
    have hopt : optLine "Calculated Hash: " (some h) = ["Calculated Hash: " ++ h] := by
      unfold optLine
      dsimp only
      rw [if_neg hne]
    have hsan : sanitize_artifact_id isalnum (some "A1") "out" = "A1" := by
      rw [sanitize_artifact_id_congr isalnum pyIsAlnumAscii (some "A1") "out"
        (fun c hc => hagree c
          ((by decide : ∀ x ∈ (pyStrip (pyOr3 (some "A1") "out")).data, x.toNat < 128) c hc))]
      decide
    unfold write_meta_file get_summary_lines
    dsimp only
    rw [show timestampLines
        [("schemaVersion", Json.str "1.0"), ("artifactId", Json.str "A1")] = some [] from rfl,
      show coreIdentityLines
        [("schemaVersion", Json.str "1.0"), ("artifactId", Json.str "A1")] = some [] from rfl,
      show archivalLines
        [("schemaVersion", Json.str "1.0"), ("artifactId", Json.str "A1")] = some [] from rfl]
    dsimp only
    rw [hopt]
    rw [show artifactIdArg (jLookup
        [("schemaVersion", Json.str "1.0"), ("artifactId", Json.str "A1")] "artifactId") =
      some (some "A1") from by decide]
    dsimp only
    rw [hsan]
    rfl

/-- Witness for C8's amended claim: the concrete companion file for the
example document with a sample hash value. -/
theorem C8_summary_amended_witness :
    write_meta_file pyIsAlnumAscii
        (Json.obj [("schemaVersion", Json.str "1.0"), ("artifactId", Json.str "A1")])
        "out" "abc123" none none =
      some ("A1_meta.txt",
        String.intercalate "\n" [sep60, "📊 Golden Codex Summary", sep60,
          "Schema Version:  1.0", "Agent:           N/A", "Artifact ID:     A1",
          "Codex ID:        N/A", "Calculated Hash: " ++ "abc123", sep60] ++ "\n") :=
  C8_summary_amended.2 pyIsAlnumAscii (fun _ _ => rfl) "abc123" (by decide)

end GCR
